import Mathlib

/-!
Shallow embedding of `mqttcloudproviderslib` (MessageHub, Provider factory,
BaseAdapter and the AWS / Azure / Google adapters) together with theorems
settling the specification claims about it.

Conventions of the embedding:
* Python values that can be `None`, a dict or a string are modelled by `PyArg`;
  Python truthiness of those values is `PyArg.pyTruthy`.
* A Python method call that may raise is modelled as `Except String α`
  (the `String` carries the exception text; its content is irrelevant).
* External collaborators (the paho mqtt session, hashlib SHA-256, the jwt
  encoder) are parameters of the definitions, exactly at the call surface the
  source uses them.
* Machine time (`time.time()` and `datetime.utcnow()`) is an explicit `Nat`
  parameter counting seconds.
-/

set_option autoImplicit false

namespace Mqttlib

/-! ## Python value model -/

/-- A Python value appearing as an argument of `MessageHub._broadcast`:
`None`, a dict (the message mapping) or a string (the subtopic). -/
inductive PyArg where
  | none
  | dict (entries : List (String × Int))
  | str (s : String)
deriving DecidableEq

/-- Python truthiness of a `PyArg`: `None` is falsy, a dict is truthy iff
non-empty, a string is truthy iff non-empty. -/
def PyArg.pyTruthy : PyArg → Bool
  | .none => false
  | .dict entries => !entries.isEmpty
  | .str s => !(s == "")

/-- A value returned by `BaseAdapter._publish`: either Python `None`
(the implicit return of the `except` path) or a boolean. -/
inductive PyRet where
  | none
  | bool (b : Bool)
deriving DecidableEq

/-! ## MessageHub._broadcast

Source (`mqttcloudproviderslib.py`, `MessageHub._broadcast`):

    arguments = [argument for argument in (message, topic) if argument]
    with concurrent.futures.ThreadPoolExecutor(max_workers=25) as executor:
        futures = [executor.submit(getattr(provider, method_name), *arguments)
                   for provider in self._providers]
    return all(list(concurrent.futures.as_completed(futures)))

Each provider method is modelled as a function from the (filtered) argument
list to a `CallOutcome`; a wrong argument count raises `TypeError` inside the
submitted task, which is stored in the `Future` and never re-raised because
the result of the future is never retrieved.  `as_completed` yields every
future exactly once, so `all` is applied to the truthiness of the `Future`
objects themselves. -/

/-- Outcome stored inside one submitted future: the Python-level result of
calling the provider method with the broadcast arguments, or the `TypeError`
raised when the argument count does not match the method arity. -/
inductive CallOutcome where
  | typeError
  | returned (r : PyRet)
deriving DecidableEq

/-- One `concurrent.futures.Future`: it records the outcome of its task. -/
structure Future where
  outcome : CallOutcome
deriving DecidableEq

/-- `bool(future)` for a `concurrent.futures.Future` object: the class defines
neither `__bool__` nor `__len__`, so every future is truthy, regardless of the
outcome (or exception) it stores. -/
def Future.pyBool (_ : Future) : Bool := true

/-- The argument filtering of `_broadcast`:
`[argument for argument in (message, topic) if argument]`. -/
def broadcastArguments (message topic : PyArg) : List PyArg :=
  [message, topic].filter PyArg.pyTruthy

/-- Calling a bound method `publish(self, message)` with an argument list:
exactly one positional argument is required, otherwise `TypeError`. -/
def callPublish (impl : PyArg → PyRet) : List PyArg → CallOutcome
  | [m] => .returned (impl m)
  | _ => .typeError

/-- Calling a bound method `publish_to_subtopic(self, message, topic)` with an
argument list: exactly two positional arguments are required, otherwise
`TypeError`. -/
def callPublishToSubtopic (impl : PyArg → PyArg → PyRet) : List PyArg → CallOutcome
  | [m, t] => .returned (impl m t)
  | _ => .typeError

/-- The list of futures produced by `_broadcast`: one submitted task per
provider, each called with the same filtered argument list. -/
def MessageHub.broadcastFutures (methods : List (List PyArg → CallOutcome))
    (message topic : PyArg) : List Future :=
  methods.map (fun call => ⟨call (broadcastArguments message topic)⟩)

/-- The return value of `_broadcast`:
`all(list(concurrent.futures.as_completed(futures)))`, i.e. the conjunction of
the truthiness of the `Future` objects themselves. -/
def MessageHub.broadcastResult (methods : List (List PyArg → CallOutcome))
    (message topic : PyArg) : Bool :=
  (MessageHub.broadcastFutures methods message topic).all Future.pyBool

/-- `MessageHub.broadcast(message)`, which is `_broadcast("publish", message)`
(so `topic` is `None`). -/
def MessageHub.broadcast (publishImpls : List (PyArg → PyRet)) (message : PyArg) : Bool :=
  MessageHub.broadcastResult (publishImpls.map callPublish) message PyArg.none

/-- `MessageHub.broadcast_to_subtopic(message, topic)`, which is
`_broadcast("publish_to_subtopic", message, topic)`. -/
def MessageHub.broadcast_to_subtopic (impls : List (PyArg → PyArg → PyRet))
    (message topic : PyArg) : Bool :=
  MessageHub.broadcastResult (impls.map callPublishToSubtopic) message topic

/-- Helper: the conjunction of the truthiness of future objects is always
`true`, whatever their outcomes. -/
theorem all_pyBool (fs : List Future) : fs.all Future.pyBool = true := by
  induction fs with
  | nil => rfl
  | cons f rest ih => simp [List.all, Future.pyBool, ih]

/-! ## Topic formatters -/

/-- Truthiness of the optional `topic` parameter of `_get_topic`: `None` and
the empty string are falsy. -/
def pyStrOptTruthy : Option String → Bool
  | Option.none => false
  | Option.some s => !(s == "")

/-- `AwsAdapter` construction data, as stored by `AwsAdapter.__init__`. -/
structure AwsAdapter where
  device_name : String
  endpoint : String
  certificate : String
  private_key : String
  certificate_authority : String
  port : Nat
  protocol : String
  device_location : String
deriving DecidableEq

/-- `AwsAdapter.__init__` with every optional parameter left at its default
(`certificate_authority="AmazonRootCA1.pem"`, `port=443`,
`protocol="x-amzn-mqtt-ca"`, `device_location="devices"`). -/
def AwsAdapter.make (device_name endpoint certificate private_key : String) : AwsAdapter :=
  { device_name := device_name
    endpoint := endpoint
    certificate := certificate
    private_key := private_key
    certificate_authority := "AmazonRootCA1.pem"
    port := 443
    protocol := "x-amzn-mqtt-ca"
    device_location := "devices" }

/-- `AwsAdapter._get_topic`:
`f"...{self.device_location}/{self.device_name}/events/{topic if topic else empty}"`. -/
def AwsAdapter.get_topic (a : AwsAdapter) (topic : Option String) : String :=
  a.device_location ++ "/" ++ a.device_name ++ "/events/" ++
    (if pyStrOptTruthy topic then topic.getD "" else "")

/-- `AzureAdapter._get_topic`:
`topic = f"topic={topic}" if topic else ""` then
`f"devices/{self.device_name}/messages/events/{topic}"`. -/
def AzureAdapter.get_topic (device_name : String) (topic : Option String) : String :=
  "devices/" ++ device_name ++ "/messages/events/" ++
    (if pyStrOptTruthy topic then "topic=" ++ topic.getD "" else "")

/-- `GoogleAdapter._get_topic`:
`f"/devices/{self.device_name}/events/{topic if topic else empty}"`. -/
def GoogleAdapter.get_topic (device_name : String) (topic : Option String) : String :=
  "/devices/" ++ device_name ++ "/events/" ++
    (if pyStrOptTruthy topic then topic.getD "" else "")

/-- The AWS topic shape asserted by the specification, transcribed from its
words for comparison with the source implementation:
`devices/{device_location}/{device_name}/events[/{subtopic}]`. -/
def specAwsTopic (device_location device_name : String) (topic : Option String) : String :=
  "devices/" ++ device_location ++ "/" ++ device_name ++ "/events" ++
    (match topic with
     | Option.some s => "/" ++ s
     | Option.none => "")

/-! ## BaseAdapter._publish

Source:

    def _publish(self, message, topic=None):
        try:
            topic = self._get_topic(topic)
            result = self._mqtt_client.publish(topic, json.dumps(message))
            ...
            return result.is_published()
        except Exception:
            self._logger.exception("Could not publish message")

The `except` branch logs and falls off the end of the function, so the method
returns Python `None` there.  The fallible collaborators are parameters:
`get_topic` (the per-adapter topic hook), `dumps` (the JSON serialization of
the message) and `clientPublish` (the session publish together with
`is_published()` on its result).  `publish(message)` is this with
`topic = None`; `publish_to_subtopic(message, topic)` passes the subtopic. -/

/-- The body of the `try` block of `_publish`: compute the topic, serialize
the message, publish, and report `is_published()`; any step may raise. -/
def publishAttempt (get_topic : Option String → Except String String)
    (dumps : Except String String)
    (clientPublish : String → String → Except String Bool)
    (topic : Option String) : Except String Bool := do
  let t ← get_topic topic
  let payload ← dumps
  clientPublish t payload

/-- `BaseAdapter._publish`: the `try` body wrapped by the broad
`except Exception` that logs and returns `None`. -/
def BaseAdapter.publish (get_topic : Option String → Except String String)
    (dumps : Except String String)
    (clientPublish : String → String → Except String Bool)
    (topic : Option String) : Except String PyRet :=
  match publishAttempt get_topic dumps clientPublish topic with
  | Except.ok published => Except.ok (PyRet.bool published)
  | Except.error _ => Except.ok PyRet.none

/-- A topic hook that always succeeds, for concrete evaluations. -/
def okGetTopic : Option String → Except String String := fun _ => Except.ok "t"

/-- A serialization step that raises, for concrete evaluations. -/
def failingDumps : Except String String :=
  Except.error "TypeError: Object of type set is not JSON serializable"

/-- A session publish that succeeds, for concrete evaluations. -/
def okClientPublish : String → String → Except String Bool := fun _ _ => Except.ok true

/-! ## Provider factory

Source (`Provider.__new__`):

    try:
        data = PROVIDERS_SCHEMA.validate(data)
        provider = data.get("name")
        adapter = getattr(importlib.import_module(...), f"{provider.title()}Adapter")
        provider_adapter = adapter(device_name=device_name, **data.get("arguments"))
        return provider_adapter
    except Exception:
        raise ProviderInstantiationError(f"The data received could not instantiate"
                                         f"any valid provider. Data received :{data}")

The schema validation and the adapter construction are parameters (they are
the collaborators that may raise); the `getattr` dispatch over the module
attributes built from `name.title() + "Adapter"` is concrete. -/

/-- The Python exceptions crossing the factory boundary. -/
inductive PyExc where
  | providerInstantiationError (message : String)
  | schemaError (message : String)
  | attributeError (message : String)
  | typeError (message : String)
deriving DecidableEq

/-- A provider configuration record: its `name` tag and its `arguments`
mapping. -/
structure ProviderData where
  name : String
  arguments : List (String × String)
deriving DecidableEq

/-- `str.title()` for one pass over the characters: an alphabetic character
is uppercased when it starts an alphabetic run and lowercased otherwise. -/
def pyTitleAux : Bool → List Char → List Char
  | _, [] => []
  | prevAlpha, c :: rest =>
    (if c.isAlpha then (if prevAlpha then c.toLower else c.toUpper) else c) ::
      pyTitleAux c.isAlpha rest

/-- `str.title()`. -/
def pyTitle (s : String) : String := ⟨pyTitleAux false s.data⟩

/-- The three concrete adapter classes of the module. -/
inductive AdapterKind where
  | aws
  | azure
  | google
deriving DecidableEq

/-- `getattr(module, attr)` restricted to the adapter classes: any other
attribute name raises `AttributeError` (an attribute that exists but is not a
concrete adapter, such as `BaseAdapter`, would instead raise `TypeError` at
instantiation; both are caught identically by the factory). -/
def moduleGetattr (attr : String) : Except PyExc AdapterKind :=
  if attr = "AwsAdapter" then Except.ok AdapterKind.aws
  else if attr = "AzureAdapter" then Except.ok AdapterKind.azure
  else if attr = "GoogleAdapter" then Except.ok AdapterKind.google
  else Except.error (PyExc.attributeError attr)

/-- The message of the `ProviderInstantiationError` raised by the factory
(the source interpolates the whole data record; the model keeps its name). -/
def providerErrorMessage (d : ProviderData) : String :=
  "The data received could not instantiate any valid provider. Data received :" ++ d.name

/-- The body of the `try` block of `Provider.__new__`: validate, dispatch on
the titled name, construct.  `α` is the adapter type produced. -/
def providerPipeline {α : Type} (validate : ProviderData → Except PyExc ProviderData)
    (construct : AdapterKind → List (String × String) → Except PyExc α)
    (data : ProviderData) : Except PyExc α :=
  match validate data with
  | Except.error e => Except.error e
  | Except.ok d =>
    match moduleGetattr (pyTitle d.name ++ "Adapter") with
    | Except.error e => Except.error e
    | Except.ok kind => construct kind d.arguments

/-- `Provider.__new__`: the pipeline wrapped by the `except Exception` clause
that raises `ProviderInstantiationError` (the message uses the current
binding of `data`, i.e. the validated record once validation succeeded). -/
def Provider.new {α : Type} (validate : ProviderData → Except PyExc ProviderData)
    (construct : AdapterKind → List (String × String) → Except PyExc α)
    (data : ProviderData) : Except PyExc α :=
  match validate data with
  | Except.error _ => Except.error (PyExc.providerInstantiationError (providerErrorMessage data))
  | Except.ok d =>
    match moduleGetattr (pyTitle d.name ++ "Adapter") with
    | Except.error _ => Except.error (PyExc.providerInstantiationError (providerErrorMessage d))
    | Except.ok kind =>
      match construct kind d.arguments with
      | Except.error _ => Except.error (PyExc.providerInstantiationError (providerErrorMessage d))
      | Except.ok a => Except.ok a

/-- A validation step rejecting its record, for concrete evaluations. -/
def rejectValidate : ProviderData → Except PyExc ProviderData :=
  fun _ => Except.error (PyExc.schemaError "did not validate against any schema")

/-- A construction step that succeeds, for concrete evaluations. -/
def natConstruct : AdapterKind → List (String × String) → Except PyExc Nat :=
  fun _ _ => Except.ok 0

/-- A record carrying an unsupported provider name. -/
def badProviderData : ProviderData := { name := "rackspace", arguments := [] }

/-! ## Azure SAS token generation

Source (`AzureAdapter._generate_sas_token`):

    ttl = int(time.time()) + expiry
    url_to_sign = quote(uri, safe="")
    hmac_ = hmac.new(base64.b64decode(key),
                     msg=f"{url_to_sign}+newline+{ttl}".encode("utf-8"),
                     digestmod="sha256")
    signature = quote(base64.b64encode(hmac_.digest()), safe="")
    return f"SharedAccessSignature sr={url_to_sign}&sig={signature}&se={ttl}"

The encodings (`urllib.parse.quote`, base64, the RFC 2104 HMAC construction,
UTF-8) are implemented concretely below; only the SHA-256 compression itself
(`hashlib`, an external collaborator) stays a function parameter. -/

/-- UTF-8 encoding of one Unicode codepoint, as a list of byte values. -/
def utf8BytesOfCodepoint (n : Nat) : List Nat :=
  if n < 128 then [n]
  else if n < 2048 then [192 + n / 64, 128 + n % 64]
  else if n < 65536 then [224 + n / 4096, 128 + (n / 64) % 64, 128 + n % 64]
  else [240 + n / 262144, 128 + (n / 4096) % 64, 128 + (n / 64) % 64, 128 + n % 64]

/-- UTF-8 encoding of a string, as `str.encode("utf-8")` produces it. -/
def utf8Bytes (s : String) : List Nat :=
  s.data.foldr (fun c acc => utf8BytesOfCodepoint c.toNat ++ acc) []

/-- The bytes `urllib.parse.quote` never encodes: ASCII letters, digits and
`_`, `.`, `-`, `~` (the call sites pass `safe=""`). -/
def isUrlSafeByte (b : Nat) : Bool :=
  (65 ≤ b && b ≤ 90) || (97 ≤ b && b ≤ 122) || (48 ≤ b && b ≤ 57) ||
    b == 95 || b == 46 || b == 45 || b == 126

/-- Uppercase hexadecimal digit, as `quote` emits in percent escapes. -/
def hexDigit (n : Nat) : Char :=
  "0123456789ABCDEF".data.getD n '0'

/-- Percent-encoding of one byte under `quote(.., safe="")`. -/
def quoteByte (b : Nat) : List Char :=
  if isUrlSafeByte b then [Char.ofNat b] else ['%', hexDigit (b / 16), hexDigit (b % 16)]

/-- `urllib.parse.quote(s, safe="")`: percent-encode every UTF-8 byte of `s`
that is not an always-safe byte. -/
def quote (s : String) : String :=
  ⟨(utf8Bytes s).foldr (fun b acc => quoteByte b ++ acc) []⟩

/-- The base64 alphabet. -/
def b64Alphabet : List Char :=
  "ABCDEFGHIJKLMNOPQRSTUVWXYZabcdefghijklmnopqrstuvwxyz0123456789+/".data

/-- The base64 character of a sextet value. -/
def b64CharOf (n : Nat) : Char := b64Alphabet.getD n '='

/-- Characters of `base64.b64encode`: groups of three bytes become four
sextet characters, with `=` padding for a short final group. -/
def b64encodeBytes : List Nat → List Char
  | [] => []
  | [a] => [b64CharOf (a / 4), b64CharOf (a % 4 * 16), '=', '=']
  | [a, b] => [b64CharOf (a / 4), b64CharOf (a % 4 * 16 + b / 16), b64CharOf (b % 16 * 4), '=']
  | a :: b :: c :: rest =>
    b64CharOf (a / 4) :: b64CharOf (a % 4 * 16 + b / 16) ::
      b64CharOf (b % 16 * 4 + c / 64) :: b64CharOf (c % 64) :: b64encodeBytes rest

/-- `base64.b64encode`, as a string of base64 characters. -/
def b64encode (bs : List Nat) : String := ⟨b64encodeBytes bs⟩

/-- Position of a character in the base64 alphabet. -/
def b64ValueAux (c : Char) : List Char → Nat → Option Nat
  | [], _ => Option.none
  | d :: rest, i => if d = c then Option.some i else b64ValueAux c rest (i + 1)

/-- Sextet value of a base64 character, `none` for padding and foreign
characters (which `base64.b64decode` discards). -/
def b64Value (c : Char) : Option Nat := b64ValueAux c b64Alphabet 0

/-- Byte values of a list of sextet values: groups of four sextets become
three bytes, a short final group contributing its complete bytes. -/
def b64decodeVals : List Nat → List Nat
  | a :: b :: c :: d :: rest =>
    (a * 4 + b / 16) :: (b % 16 * 16 + c / 4) :: (c % 4 * 64 + d) :: b64decodeVals rest
  | [a, b, c] => [a * 4 + b / 16, b % 16 * 16 + c / 4]
  | [a, b] => [a * 4 + b / 16]
  | _ => []

/-- `base64.b64decode` on a text key: non-alphabet characters (including `=`
padding) are discarded, then sextets are packed into bytes. -/
def b64decode (s : String) : List Nat :=
  b64decodeVals (s.data.filterMap b64Value)

/-- HMAC block size of SHA-256 (64 bytes), as `hmac.new` uses it. -/
def hmacBlockSize : Nat := 64

/-- Key normalisation of RFC 2104: hash a long key, then zero-pad to the
block size. -/
def hmacPadKey (sha256 : List Nat → List Nat) (key : List Nat) : List Nat :=
  let k := if hmacBlockSize < key.length then sha256 key else key
  k ++ List.replicate (hmacBlockSize - k.length) 0

/-- `hmac.new(key, msg, digestmod="sha256").digest()`: the RFC 2104
construction over the given SHA-256 compression. -/
def hmacSha256 (sha256 : List Nat → List Nat) (key msg : List Nat) : List Nat :=
  let k := hmacPadKey sha256 key
  sha256 ((k.map (fun b => b ^^^ 92)) ++ sha256 ((k.map (fun b => b ^^^ 54)) ++ msg))

/-- `ttl = int(time.time()) + expiry`: the expiry instant embedded in a SAS
token generated at `now`. -/
def sasTtl (now expiry : Nat) : Nat := now + expiry

/-- The default of the `expiry` parameter of `_generate_sas_token` (3600
seconds); both call sites rely on it. -/
def azureDefaultTokenTtl : Nat := 3600

/-- `AzureAdapter._generate_sas_token(uri, key, expiry)` generated at machine
time `now`, with the SHA-256 compression as a parameter. -/
def generate_sas_token (sha256 : List Nat → List Nat) (now : Nat)
    (uri key : String) (expiry : Nat) : String :=
  let ttl := sasTtl now expiry
  let url_to_sign := quote uri
  let signature := quote (b64encode (hmacSha256 sha256 (b64decode key)
    (utf8Bytes (url_to_sign ++ "\n" ++ toString ttl))))
  "SharedAccessSignature sr=" ++ url_to_sign ++ "&sig=" ++ signature ++ "&se=" ++ toString ttl

/-! ## Disconnect handling

Each `on_disconnect(self, client, user_data, return_code)` runs
`if return_code:` (truthy iff non-zero) and then performs zero or more calls
on the owned mqtt client.  The model returns the new client credential state
together with the ordered list of mqtt client calls performed.  The unused
`client` and `user_data` parameters are omitted. -/

/-- An observable call made on the mqtt client during `on_disconnect`. -/
inductive MqttAction where
  | usernamePwSet (username password : String)
  | reconnect
deriving DecidableEq

/-- The username/password pair held by an mqtt client (set via
`username_pw_set`). -/
structure PasswordAuth where
  username : String
  password : String
deriving DecidableEq

/-- The mutual-TLS material loaded into the AWS client context; nothing in
`AwsAdapter.on_disconnect` touches it. -/
structure TlsCredential where
  certificate_authority : String
  certificate : String
  private_key : String
deriving DecidableEq

/-- `AwsAdapter.on_disconnect`: on a truthy return code, only
`self._mqtt_client.reconnect()`, with the TLS credential untouched. -/
def AwsAdapter.on_disconnect (return_code : Int) (st : TlsCredential) :
    TlsCredential × List MqttAction :=
  if return_code ≠ 0 then (st, [MqttAction.reconnect]) else (st, [])

/-- `f"{endpoint}/{device_name}/?api-version={api_version}"`, the fixed Azure
username computed in `AzureAdapter.__init__`. -/
def azureUser (endpoint device_name api_version : String) : String :=
  endpoint ++ "/" ++ device_name ++ "/?api-version=" ++ api_version

/-- `AzureAdapter.on_disconnect`: on a truthy return code, set a freshly
generated SAS token (computed at the current machine time `now`) with
`username_pw_set`, then `reconnect`. -/
def AzureAdapter.on_disconnect (sha256 : List Nat → List Nat)
    (endpoint key user : String) (now : Nat) (return_code : Int)
    (st : PasswordAuth) : PasswordAuth × List MqttAction :=
  if return_code ≠ 0 then
    let token := generate_sas_token sha256 now endpoint key azureDefaultTokenTtl
    ({ username := user, password := token },
     [MqttAction.usernamePwSet user token, MqttAction.reconnect])
  else (st, [])

/-- The JWT claim set built by `GoogleAdapter._create_jwt`. -/
structure JwtClaims where
  iat : Nat
  exp : Nat
  aud : String
deriving DecidableEq

/-- The claim dictionary of `_create_jwt` at machine time `now`:
`iat = utcnow, exp = utcnow + 60 minutes, aud = project_id` (in seconds). -/
def google_jwt_claims (now : Nat) (project_id : String) : JwtClaims :=
  { iat := now, exp := now + 3600, aud := project_id }

/-- `GoogleAdapter._create_jwt(project_id, private_key, algorithm)` at machine
time `now`; the `jwt` library encoder is a parameter, the private key file
contents are passed directly. -/
def create_jwt (jwtEncode : JwtClaims → String → String → String) (now : Nat)
    (project_id private_key_contents algorithm : String) : String :=
  jwtEncode (google_jwt_claims now project_id) private_key_contents algorithm

/-- `GoogleAdapter.on_disconnect`: on a truthy return code, set a freshly
created JWT (username `unused`) with `username_pw_set`, then `reconnect`. -/
def GoogleAdapter.on_disconnect (jwtEncode : JwtClaims → String → String → String)
    (project_id private_key_contents : String) (now : Nat) (return_code : Int)
    (st : PasswordAuth) : PasswordAuth × List MqttAction :=
  if return_code ≠ 0 then
    let token := create_jwt jwtEncode now project_id private_key_contents "RS256"
    ({ username := "unused", password := token },
     [MqttAction.usernamePwSet "unused" token, MqttAction.reconnect])
  else (st, [])

/-- A concrete stand-in digest function, used only to instantiate the
abstract SHA-256 parameter in concrete evaluations. -/
def constHash : List Nat → List Nat := fun _ => []

/-- A concrete stand-in JWT encoder, used only to instantiate the abstract
encoder parameter in concrete evaluations. -/
def constJwtEncode : JwtClaims → String → String → String := fun _ _ _ => "jwt"

/-! ## Claim theorems about the hub and the topic formatters -/

/-- C1: the claim says `broadcast(message)` is true iff every publish returned
true.  The code instead applies `all()` to the list of `Future` objects, which
are unconditionally truthy, so the aggregate is `true` even when a publish
returned `false`.  Here a hub with a single provider whose publish returns
`false` still broadcasts `true`, while the stored future outcome visibly is
`returned false`. -/
theorem broadcast_ignores_publish_results :
    MessageHub.broadcast [fun _ => PyRet.bool false] (PyArg.dict [("temperature", 21)]) = true ∧
    (MessageHub.broadcastFutures [callPublish (fun _ => PyRet.bool false)]
        (PyArg.dict [("temperature", 21)]) PyArg.none).map Future.outcome =
      [CallOutcome.returned (PyRet.bool false)] := by
  exact ⟨rfl, rfl⟩

/-- C7: a hub with an empty provider list broadcasts `true` for every message,
and no future (hence no provider publish, hence no network call) is created. -/
theorem broadcast_empty_providers (message : PyArg) :
    MessageHub.broadcast [] message = true ∧
    MessageHub.broadcastFutures ([] : List (List PyArg → CallOutcome)) message PyArg.none = [] := by
  exact ⟨rfl, rfl⟩

/-- C6: on a Google adapter with device name `d1`, the topic computed for
subtopic `status` is `/devices/d1/events/status`. -/
theorem google_subtopic_status :
    GoogleAdapter.get_topic "d1" (Option.some "status") = "/devices/d1/events/status" := by
  decide

/-- C8: for every SHA-256 compression, generation time, resource URI and
shared key, the SAS token is the string
`SharedAccessSignature sr=<quoted uri>&sig=<signature>&se=<expiry>` where the
signature is the URL-encoded base64 of the HMAC-SHA256 (keyed by the
base64-decoded key) of the UTF-8 bytes of `<quoted uri>\n<expiry>`, the
default TTL is 3600 seconds, and the expiry is the generation time plus the
TTL, hence strictly later than the generation time. -/
theorem azure_sas_token_format (sha256 : List Nat → List Nat) (now : Nat) (uri key : String) :
    generate_sas_token sha256 now uri key azureDefaultTokenTtl =
      "SharedAccessSignature sr=" ++ quote uri ++ "&sig=" ++
        quote (b64encode (hmacSha256 sha256 (b64decode key)
          (utf8Bytes (quote uri ++ "\n" ++ toString (now + 3600))))) ++
        "&se=" ++ toString (now + 3600) ∧
    azureDefaultTokenTtl = 3600 ∧
    sasTtl now azureDefaultTokenTtl = now + 3600 ∧
    now < sasTtl now azureDefaultTokenTtl := by
  refine ⟨rfl, rfl, rfl, ?_⟩
  show now < now + 3600
  omega

/-- C3 as stated is false: a non-clean disconnect occurring at the same
machine second as the generation of the credential in use regenerates a
byte-identical token, so the new expiry equals (does not differ from) the one
in use immediately before the disconnect.  Here the Azure adapter disconnects
non-cleanly at time 5 while holding the token generated at time 5: the
resulting password is unchanged and the expiry is the same instant. -/
theorem noncleanDisconnectCounterexample :
    (AzureAdapter.on_disconnect constHash "e" "k" "u" 5 1
        { username := "u", password := generate_sas_token constHash 5 "e" "k" azureDefaultTokenTtl }).1 =
      { username := "u", password := generate_sas_token constHash 5 "e" "k" azureDefaultTokenTtl } ∧
    sasTtl 5 azureDefaultTokenTtl = sasTtl 5 azureDefaultTokenTtl := by
  exact ⟨rfl, rfl⟩

/-- C3 amended: for every non-clean disconnect (non-zero return code) at
machine time `t1`, the Azure adapter sets a freshly generated SAS token
(computed at `t1`) on the session before reconnecting and the Google adapter
sets a freshly created JWT (claims computed at `t1`) before reconnecting;
the new expiry is `t1` plus the TTL, so it differs from the expiry of a
credential generated at any other machine second `t0` and is strictly later
than `t1`; the AWS adapter reconnects with its TLS credential identical. -/
theorem noncleanDisconnectRefreshesCredential (sha256 : List Nat → List Nat)
    (jwtEncode : JwtClaims → String → String → String)
    (endpoint key user project_id private_key_contents : String)
    (t0 t1 : Nat) (rc : Int) (stAz stG : PasswordAuth) (stAws : TlsCredential)
    (hrc : rc ≠ 0) (ht : t0 ≠ t1) :
    AzureAdapter.on_disconnect sha256 endpoint key user t1 rc stAz =
      ({ username := user,
         password := generate_sas_token sha256 t1 endpoint key azureDefaultTokenTtl },
       [MqttAction.usernamePwSet user (generate_sas_token sha256 t1 endpoint key azureDefaultTokenTtl),
        MqttAction.reconnect]) ∧
    sasTtl t1 azureDefaultTokenTtl ≠ sasTtl t0 azureDefaultTokenTtl ∧
    t1 < sasTtl t1 azureDefaultTokenTtl ∧
    GoogleAdapter.on_disconnect jwtEncode project_id private_key_contents t1 rc stG =
      ({ username := "unused",
         password := create_jwt jwtEncode t1 project_id private_key_contents "RS256" },
       [MqttAction.usernamePwSet "unused"
          (create_jwt jwtEncode t1 project_id private_key_contents "RS256"),
        MqttAction.reconnect]) ∧
    (google_jwt_claims t1 project_id).exp ≠ (google_jwt_claims t0 project_id).exp ∧
    t1 < (google_jwt_claims t1 project_id).exp ∧
    AwsAdapter.on_disconnect rc stAws = (stAws, [MqttAction.reconnect]) := by
  refine ⟨?_, ?_, ?_, ?_, ?_, ?_, ?_⟩
  · simp [AzureAdapter.on_disconnect, hrc]
  · simp only [sasTtl, azureDefaultTokenTtl]
    omega
  · simp only [sasTtl, azureDefaultTokenTtl]
    omega
  · simp [GoogleAdapter.on_disconnect, hrc]
  · simp only [google_jwt_claims]
    omega
  · simp only [google_jwt_claims]
    omega
  · simp [AwsAdapter.on_disconnect, hrc]

/-- Witness for the amended C3 at a concrete input: disconnect with return
code 1 at time 1, previous credential generated at time 0. -/
theorem noncleanDisconnectRefreshesCredentialWitness :
    (AzureAdapter.on_disconnect constHash "e" "k" "u" 1 1
        { username := "u", password := "old" }).1.password =
      generate_sas_token constHash 1 "e" "k" azureDefaultTokenTtl ∧
    sasTtl 1 azureDefaultTokenTtl ≠ sasTtl 0 azureDefaultTokenTtl ∧
    AwsAdapter.on_disconnect 1 { certificate_authority := "ca", certificate := "c", private_key := "k" } =
      ({ certificate_authority := "ca", certificate := "c", private_key := "k" },
       [MqttAction.reconnect]) := by
  have h := noncleanDisconnectRefreshesCredential constHash constJwtEncode
    "e" "k" "u" "p" "pk" 0 1 1
    { username := "u", password := "old" } { username := "unused", password := "old" }
    { certificate_authority := "ca", certificate := "c", private_key := "k" }
    (by decide) (by decide)
  exact ⟨by rw [h.1], h.2.1, h.2.2.2.2.2.2⟩

/-- C5 as stated is false: with the default `device_location = "devices"` and
no subtopic the code produces `devices/d1/events/` (the device location is the
first path segment, and a trailing slash is always present), not the
spec shape `devices/{device_location}/{device_name}/events`, which would be
`devices/devices/d1/events`. -/
theorem awsTopicCounterexample :
    (AwsAdapter.make "d1" "ep" "cert.pem" "key.pem").get_topic Option.none =
      "devices/d1/events/" ∧
    specAwsTopic (AwsAdapter.make "d1" "ep" "cert.pem" "key.pem").device_location "d1"
        Option.none = "devices/devices/d1/events" ∧
    (AwsAdapter.make "d1" "ep" "cert.pem" "key.pem").get_topic Option.none ≠
      specAwsTopic (AwsAdapter.make "d1" "ep" "cert.pem" "key.pem").device_location "d1"
        Option.none := by
  refine ⟨by decide, by decide, by decide⟩

/-- C5 amended: the AWS topic is
`{device_location}/{device_name}/events/{subtopic}` when a non-empty subtopic
is given and `{device_location}/{device_name}/events/` (with a trailing slash,
no extra `devices/` prefix) when the subtopic is absent or empty, with
`device_location` defaulting to `devices` at construction. -/
theorem awsTopicAmended (a : AwsAdapter) (s : String) :
    a.get_topic Option.none = a.device_location ++ "/" ++ a.device_name ++ "/events/" ∧
    a.get_topic (Option.some "") = a.device_location ++ "/" ++ a.device_name ++ "/events/" ∧
    (s ≠ "" → a.get_topic (Option.some s) =
      a.device_location ++ "/" ++ a.device_name ++ "/events/" ++ s) ∧
    (AwsAdapter.make a.device_name a.endpoint a.certificate a.private_key).device_location =
      "devices" := by
  refine ⟨?_, ?_, ?_, rfl⟩
  · simp [AwsAdapter.get_topic, pyStrOptTruthy, String.append_empty]
  · simp [AwsAdapter.get_topic, pyStrOptTruthy, String.append_empty]
  · intro hs
    simp [AwsAdapter.get_topic, pyStrOptTruthy, hs]

/-- Witness for the amended C5 at a concrete input: device `d1` with the
default device location and subtopic `sub`. -/
theorem awsTopicAmendedWitness :
    ("sub" : String) ≠ "" ∧
    (AwsAdapter.make "d1" "ep" "c" "k").get_topic (Option.some "sub") =
      "devices/d1/events/sub" := by
  have h := (awsTopicAmended (AwsAdapter.make "d1" "ep" "c" "k") "sub").2.2.1 (by decide)
  refine ⟨by decide, ?_⟩
  rw [h]
  decide

/-- C4: for a clean disconnect (return code 0), none of the three adapters
performs any mqtt client call, and the credential state is unchanged. -/
theorem cleanDisconnectNoReconnect (sha256 : List Nat → List Nat)
    (jwtEncode : JwtClaims → String → String → String)
    (endpoint key user project_id private_key_contents : String) (now : Nat)
    (stAz stG : PasswordAuth) (stAws : TlsCredential) :
    AzureAdapter.on_disconnect sha256 endpoint key user now 0 stAz = (stAz, []) ∧
    GoogleAdapter.on_disconnect jwtEncode project_id private_key_contents now 0 stG = (stG, []) ∧
    AwsAdapter.on_disconnect 0 stAws = (stAws, []) := by
  refine ⟨?_, ?_, ?_⟩ <;>
    simp [AzureAdapter.on_disconnect, GoogleAdapter.on_disconnect, AwsAdapter.on_disconnect]

/-- C2 as stated is false in one detail: when a step of `_publish` raises,
the broad `except` clause logs and falls off the end of the method, so the
returned value is Python `None` (a falsy value), not the boolean `False`.
Here serialization raises and the method returns `None`, which differs from
`False`. -/
theorem publishCounterexample :
    BaseAdapter.publish okGetTopic failingDumps okClientPublish Option.none =
      Except.ok PyRet.none ∧
    (Except.ok PyRet.none : Except String PyRet) ≠ Except.ok (PyRet.bool false) := by
  refine ⟨rfl, ?_⟩
  intro h
  exact PyRet.noConfusion (Except.ok.inj h)

/-- C2 amended: `_publish` (hence `publish` and `publish_to_subtopic`, which
only choose the `topic` argument) never raises to the caller: it always
returns a value; when topic computation, serialization or the session publish
raises, the exception is caught and the returned value is the falsy `None`;
otherwise it returns the boolean from `is_published()`. -/
theorem publishNeverRaises (get_topic : Option String → Except String String)
    (dumps : Except String String)
    (clientPublish : String → String → Except String Bool) (topic : Option String) :
    (∃ r, BaseAdapter.publish get_topic dumps clientPublish topic = Except.ok r) ∧
    (∀ e, publishAttempt get_topic dumps clientPublish topic = Except.error e →
      BaseAdapter.publish get_topic dumps clientPublish topic = Except.ok PyRet.none) ∧
    (∀ b, publishAttempt get_topic dumps clientPublish topic = Except.ok b →
      BaseAdapter.publish get_topic dumps clientPublish topic = Except.ok (PyRet.bool b)) := by
  cases h : publishAttempt get_topic dumps clientPublish topic with
  | error e => simp [BaseAdapter.publish, h]
  | ok b => simp [BaseAdapter.publish, h]

/-- Witness for the amended C2 at a concrete input: a serializer that raises
makes `_publish` return `None`. -/
theorem publishNeverRaisesWitness :
    publishAttempt okGetTopic failingDumps okClientPublish Option.none =
      Except.error "TypeError: Object of type set is not JSON serializable" ∧
    BaseAdapter.publish okGetTopic failingDumps okClientPublish Option.none =
      Except.ok PyRet.none := by
  refine ⟨rfl, ?_⟩
  exact (publishNeverRaises okGetTopic failingDumps okClientPublish Option.none).2.1 _ rfl

/-- C9: whatever fails inside `Provider.__new__` (schema validation, the
`getattr` dispatch on an unrecognized name, or adapter construction), the
factory result is an `ProviderInstantiationError`; an error of any other
exception type never escapes, and an adapter is returned exactly when the
whole pipeline succeeded. -/
theorem providerFactorySingleError {α : Type}
    (validate : ProviderData → Except PyExc ProviderData)
    (construct : AdapterKind → List (String × String) → Except PyExc α)
    (data : ProviderData) :
    (∀ e, providerPipeline validate construct data = Except.error e →
      ∃ m, Provider.new validate construct data = Except.error (PyExc.providerInstantiationError m)) ∧
    (∀ e, Provider.new validate construct data = Except.error e →
      ∃ m, e = PyExc.providerInstantiationError m) ∧
    (∀ a : α, Provider.new validate construct data = Except.ok a ↔
      providerPipeline validate construct data = Except.ok a) := by
  cases h1 : validate data with
  | error e1 => simp [Provider.new, providerPipeline, h1]
  | ok d =>
    cases h2 : moduleGetattr (pyTitle d.name ++ "Adapter") with
    | error e2 => simp [Provider.new, providerPipeline, h1, h2]
    | ok kind =>
      cases h3 : construct kind d.arguments with
      | error e3 => simp [Provider.new, providerPipeline, h1, h2, h3]
      | ok a => simp [Provider.new, providerPipeline, h1, h2, h3]

/-- Witness for C9 at a concrete input: a record with the unsupported name
`rackspace` is rejected by validation and the factory surfaces a
`ProviderInstantiationError`. -/
theorem providerFactorySingleErrorWitness :
    (∃ m, Provider.new rejectValidate natConstruct badProviderData =
      Except.error (PyExc.providerInstantiationError m)) ∧
    providerPipeline rejectValidate natConstruct badProviderData =
      Except.error (PyExc.schemaError "did not validate against any schema") := by
  refine ⟨?_, rfl⟩
  exact (providerFactorySingleError rejectValidate natConstruct badProviderData).1 _ rfl

/-- Helper: `callPublishToSubtopic` raises `TypeError` whenever the filtered
argument list was built with an empty-string subtopic, because at most one
argument survives the filter. -/
theorem subtopic_call_typeError (impl : PyArg → PyArg → PyRet) (m : PyArg) :
    callPublishToSubtopic impl (broadcastArguments m (PyArg.str "")) = CallOutcome.typeError := by
  cases hm : PyArg.pyTruthy m with
  | false =>
    simp only [broadcastArguments, List.filter_cons, hm]
    rfl
  | true =>
    simp only [broadcastArguments, List.filter_cons, hm]
    rfl

/-- C10: an empty dict message (falsy) is filtered out of the broadcast
arguments, so every provider task calls the method with the argument missing
and stores a `TypeError`; likewise an empty-string subtopic leaves
`publish_to_subtopic` one argument short.  The stored errors are never
retrieved and the aggregate result is still `true`. -/
theorem falsyArgumentsDropped (publishImpls : List (PyArg → PyRet))
    (subImpls : List (PyArg → PyArg → PyRet)) (m : PyArg) :
    MessageHub.broadcast publishImpls (PyArg.dict []) = true ∧
    MessageHub.broadcastFutures (publishImpls.map callPublish) (PyArg.dict []) PyArg.none =
      publishImpls.map (fun _ => Future.mk CallOutcome.typeError) ∧
    MessageHub.broadcast_to_subtopic subImpls m (PyArg.str "") = true ∧
    MessageHub.broadcastFutures (subImpls.map callPublishToSubtopic) m (PyArg.str "") =
      subImpls.map (fun _ => Future.mk CallOutcome.typeError) := by
  refine ⟨all_pyBool _, ?_, all_pyBool _, ?_⟩
  · induction publishImpls with
    | nil => rfl
    | cons impl rest ih =>
      show Future.mk (callPublish impl (broadcastArguments (PyArg.dict []) PyArg.none)) ::
          MessageHub.broadcastFutures (rest.map callPublish) (PyArg.dict []) PyArg.none =
        Future.mk CallOutcome.typeError :: rest.map (fun _ => Future.mk CallOutcome.typeError)
      rw [ih]
      rfl
  · induction subImpls with
    | nil => rfl
    | cons impl rest ih =>
      show Future.mk (callPublishToSubtopic impl (broadcastArguments m (PyArg.str ""))) ::
          MessageHub.broadcastFutures (rest.map callPublishToSubtopic) m (PyArg.str "") =
        Future.mk CallOutcome.typeError :: rest.map (fun _ => Future.mk CallOutcome.typeError)
      rw [subtopic_call_typeError impl m, ih]

end Mqttlib
